import Mathlib

/-!
Shallow embedding of the Bordeaux VLS (VCUB) ingestion-and-analysis pipeline
(`src/extract.py`, `src/app.py`).

The SQLite table `station_status` is modelled as a `List Row` in insertion
order.  SQL `NULL` is modelled by `Option`; SQLite `REAL` by `ℚ` (all the
arithmetic the queries perform on these values is exact on the rationals).
The `load_data_to_sqlite` embedding follows `app.py` (the variant whose
return value distinguishes success `True`, failure `False` and the bare
`return` of the empty branch, modelled as `Option Bool`); `extract.py`
contains the identical function with the return values erased.  A storage
error inside the `try` block (any `sqlite3.Error` raised during table
creation, insert or commit) is modelled by the boolean `fault` parameter:
when it fires, the `except` branch rolls the transaction back, so the store
is unchanged.
-/

/-- One raw station record from the CityBikes JSON (`d.get(...)` access:
every field may be absent). -/
structure RawStation where
  id : Option String
  name : Option String
  free_bikes : Option Int
  empty_slots : Option Int
  latitude : Option ℚ
  longitude : Option ℚ
deriving DecidableEq

/-- One row of the `station_status` table, column order
`(snapshot_time, station_id, name, num_bikes_available, num_docks_available,
latitude, longitude)`.  `snapshot_time` is always written from
`current_time_str`, hence never NULL. -/
structure Row where
  snapshot_time : String
  station_id : Option String
  name : Option String
  num_bikes_available : Option Int
  num_docks_available : Option Int
  latitude : Option ℚ
  longitude : Option ℚ
deriving DecidableEq

/-- The tuple built for `SQL_INSERT` from one station dict
(the `row = (current_time_str, station.get('id'), ...)` transformation). -/
def mkRow (current_time_str : String) (s : RawStation) : Row :=
  { snapshot_time := current_time_str
    station_id := s.id
    name := s.name
    num_bikes_available := s.free_bikes
    num_docks_available := s.empty_slots
    latitude := s.latitude
    longitude := s.longitude }

/-- Result of one call to `load_data_to_sqlite`: the store afterwards, the
Python return value (`none` = `None`, `some true` = `True`,
`some false` = `False`), and whether a connection was opened / closed. -/
structure LoadOutcome where
  store : List Row
  ret : Option Bool
  connOpened : Bool
  connClosed : Bool
deriving DecidableEq

/-- Embedding of `load_data_to_sqlite(stations_data, current_time_str)` of
`app.py` (lines 49-85).  Empty input returns immediately (bare `return`, i.e. Python
`None`) before any connection is opened.  Otherwise a connection is opened,
all rows are inserted by one `executemany` and committed; on a storage
fault the `except sqlite3.Error` branch rolls back (store unchanged) and
returns `False`; the `finally` closes the connection in either case. -/
def load_data_to_sqlite (fault : Bool) (stations_data : List RawStation)
    (current_time_str : String) (store : List Row) : LoadOutcome :=
  if stations_data.isEmpty then
    { store := store, ret := none, connOpened := false, connClosed := false }
  else if fault then
    { store := store, ret := some false, connOpened := true, connClosed := true }
  else
    { store := store ++ stations_data.map (mkRow current_time_str)
      ret := some true, connOpened := true, connClosed := true }

/-- The JSON body: `data.get('network', {}).get('stations', [])`. -/
structure NetworkData where
  stations : Option (List RawStation)
deriving DecidableEq

structure ApiData where
  network : Option NetworkData
deriving DecidableEq

/-- Result of the extraction step: either a decoded JSON body, or a
`requests.exceptions.RequestException` (transport failure, or the
`HTTPError` that `raise_for_status()` raises on a non-2xx status). -/
inductive FetchResult where
  | ok (data : ApiData)
  | requestError
deriving DecidableEq

/-- The outcome of one ingestion cycle, remembering which `except` branch
(if any) classified the failure. -/
inductive CycleOutcome where
  | loaded (r : Option Bool)
  | networkFailure
deriving DecidableEq

/-- The Python value `run_ingestion_cycle` returns: the `except
RequestException` branch returns `False`; otherwise the value of
`load_data_to_sqlite` is passed through. -/
def CycleOutcome.ret : CycleOutcome → Option Bool
  | .loaded r => r
  | .networkFailure => some false

/-- Embedding of `run_ingestion_cycle()` of `app.py` (lines 87-108): fetch, extract
`network.stations` with empty-dict / empty-list defaults, stamp
`datetime.now().isoformat()` once (the parameter `now`), and load. -/
def run_ingestion_cycle (fetch : FetchResult) (now : String) (fault : Bool)
    (store : List Row) : List Row × CycleOutcome :=
  match fetch with
  | .requestError => (store, .networkFailure)
  | .ok data =>
      let stations_data := (data.network.getD ⟨none⟩).stations.getD []
      let out := load_data_to_sqlite fault stations_data now store
      (out.store, .loaded out.ret)

/-- The subquery `SELECT MAX(snapshot_time) FROM station_status` (MAX over TEXT;
`snapshot_time` is never NULL in rows this pipeline writes). -/
def maxTime : List Row → Option String
  | [] => none
  | r :: rs =>
      match maxTime rs with
      | none => some r.snapshot_time
      | some m => some (max r.snapshot_time m)

/-- Embedding of the query in `get_station_data_for_display` of `app.py` (lines 115-131):
`SELECT * FROM station_status WHERE snapshot_time =
(SELECT MAX(snapshot_time) FROM station_status)`.  On an empty table the
subquery is NULL and the comparison selects no row. -/
def read_latest (store : List Row) : List Row :=
  match maxTime store with
  | none => []
  | some m => store.filter (fun r => r.snapshot_time = m)

theorem maxTime_eq_none {l : List Row} : maxTime l = none ↔ l = [] := by
  cases l with
  | nil => simp [maxTime]
  | cons r rs =>
      simp only [maxTime]
      cases maxTime rs <;> simp

theorem maxTime_spec {l : List Row} (h : l ≠ []) :
    ∃ m, maxTime l = some m ∧ (∃ r ∈ l, r.snapshot_time = m) ∧
      ∀ r ∈ l, r.snapshot_time ≤ m := by
  induction l with
  | nil => exact absurd rfl h
  | cons a rs ih =>
      by_cases hrs : rs = []
      · subst hrs
        refine ⟨a.snapshot_time, by simp [maxTime], ⟨a, by simp⟩, ?_⟩
        intro r hr
        simp only [List.mem_singleton] at hr
        simp [hr]
      · obtain ⟨m, hm, ⟨r0, hr0, hr0t⟩, hub⟩ := ih hrs
        refine ⟨max a.snapshot_time m, by simp [maxTime, hm], ?_, ?_⟩
        · rcases max_cases a.snapshot_time m with ⟨he, _⟩ | ⟨he, _⟩
          · exact ⟨a, List.mem_cons_self _ _, he.symm⟩
          · exact ⟨r0, List.mem_cons_of_mem _ hr0, by rw [hr0t, he]⟩
        · intro r hr
          rcases List.mem_cons.mp hr with h | h
          · subst h; exact le_max_left _ _
          · exact le_trans (hub r h) (le_max_right _ _)

/-!
The ranking query

`SQL_RANKING_QUERY` (identical in `extract.py` 110-125 and `app.py` 28-43):

    SELECT station_id, name, COUNT(*), SUM(num_bikes_available),
           AVG(num_bikes_available),
           ROUND(AVG(CAST(num_bikes_available AS REAL)
                     / (num_bikes_available + num_docks_available)) * 100, 2)
    FROM station_status GROUP BY station_id, name
    ORDER BY avg_bikes DESC LIMIT 10

SQLite semantics embedded here: `COUNT(*)` counts every row of the group;
`SUM`/`AVG` aggregate only non-NULL arguments and yield NULL when no
non-NULL argument exists; integer-or-real division by zero yields NULL, and
NULL propagates through `+`, `/`, `*` and `ROUND`; `ORDER BY ... DESC`
sorts NULL below every number, so NULLs come last; `LIMIT 10` keeps the
first 10 rows.
-/

/-- The GROUP BY key of a row (SQLite groups NULL keys together). -/
def rowKey (r : Row) : Option String × Option String := (r.station_id, r.name)

/-- The distinct GROUP BY keys present in the store. -/
def groupKeys (store : List Row) : List (Option String × Option String) :=
  (store.map rowKey).dedup

/-- The rows of one group. -/
def groupRows (store : List Row) (k : Option String × Option String) : List Row :=
  store.filter (fun r => rowKey r = k)

/-- The per-row term `CAST(num_bikes_available AS REAL) / (num_bikes_available +
num_docks_available)`: NULL if either operand is NULL, and NULL
on division by zero (SQLite `/` returns NULL for a zero divisor). -/
def rowUtil (r : Row) : Option ℚ :=
  match r.num_bikes_available, r.num_docks_available with
  | some b, some d => if b + d = 0 then none else some ((b : ℚ) / ((b : ℚ) + (d : ℚ)))
  | _, _ => none

/-- SQLite `SUM` over an INTEGER column: NULL when every argument is NULL. -/
def sqlSum (vals : List (Option Int)) : Option Int :=
  let nn := vals.filterMap id
  if nn.isEmpty then none else some nn.sum

/-- SQLite `AVG` over an INTEGER column: arithmetic mean of the non-NULL
arguments, NULL when there are none. -/
def sqlAvgInt (vals : List (Option Int)) : Option ℚ :=
  let nn := vals.filterMap id
  if nn.isEmpty then none else some ((nn.sum : ℚ) / (nn.length : ℚ))

/-- SQLite `AVG` over a REAL expression: mean of the non-NULL values. -/
def sqlAvgQ (vals : List (Option ℚ)) : Option ℚ :=
  let nn := vals.filterMap id
  if nn.isEmpty then none else some (nn.sum / (nn.length : ℚ))

/-- SQLite `ROUND(x, 2)`: round to 2 decimal places, halves away from zero. -/
def round2 (q : ℚ) : ℚ :=
  if 0 ≤ q then ((⌊q * 100 + 1/2⌋ : ℤ) : ℚ) / 100
  else -(((⌊-q * 100 + 1/2⌋ : ℤ) : ℚ) / 100)

/-- One result row of the ranking query. -/
structure RankingEntry where
  station_id : Option String
  name : Option String
  snapshots_count : Nat
  total_bikes : Option Int
  avg_bikes : Option ℚ
  avg_utilization_percent : Option ℚ
deriving DecidableEq

/-- The aggregates of one `(station_id, name)` group. -/
def entryFor (store : List Row) (k : Option String × Option String) :
    RankingEntry :=
  let g := groupRows store k
  { station_id := k.1
    name := k.2
    snapshots_count := g.length
    total_bikes := sqlSum (g.map (·.num_bikes_available))
    avg_bikes := sqlAvgInt (g.map (·.num_bikes_available))
    avg_utilization_percent :=
      (sqlAvgQ (g.map rowUtil)).map (fun a => round2 (a * 100)) }

/-- The GROUP BY output: one entry per distinct key, before ORDER BY/LIMIT. -/
def rankingEntries (store : List Row) : List RankingEntry :=
  (groupKeys store).map (entryFor store)

/-- The `ORDER BY avg_bikes DESC` comparison: `a` may precede `b` iff
`a.avg_bikes ≥ b.avg_bikes` in SQLite order, where NULL sorts below every
number (hence last under DESC). -/
def rankBefore (a b : RankingEntry) : Bool :=
  match a.avg_bikes, b.avg_bikes with
  | _, none => true
  | none, some _ => false
  | some x, some y => decide (y ≤ x)

/-- The full ranking query: aggregate per group, sort descending by
`avg_bikes`, keep the first 10 rows. -/
def compute_ranking (store : List Row) : List RankingEntry :=
  ((rankingEntries store).mergeSort rankBefore).take 10

theorem rankBefore_trans (a b c : RankingEntry) :
    rankBefore a b → rankBefore b c → rankBefore a c := by
  unfold rankBefore
  cases ha : a.avg_bikes <;> cases hb : b.avg_bikes <;> cases hc : c.avg_bikes <;>
    simp_all
  exact fun h1 h2 => le_trans h2 h1

theorem rankBefore_total (a b : RankingEntry) :
    rankBefore a b || rankBefore b a := by
  unfold rankBefore
  cases a.avg_bikes <;> cases b.avg_bikes <;> simp_all
  exact le_total _ _

/-!
Claim theorems
-/

theorem load_store_extends (fault : Bool) (stations : List RawStation)
    (t : String) (store : List Row) :
    ∃ written, (load_data_to_sqlite fault stations t store).store = store ++ written ∧
      ∀ r ∈ written, r.snapshot_time = t := by
  cases he : stations.isEmpty with
  | true => exact ⟨[], by simp [load_data_to_sqlite, he], by simp⟩
  | false =>
      cases fault with
      | true => exact ⟨[], by simp [load_data_to_sqlite, he], by simp⟩
      | false =>
          refine ⟨stations.map (mkRow t), by simp [load_data_to_sqlite, he], ?_⟩
          intro r hr
          obtain ⟨s, _, rfl⟩ := List.mem_map.mp hr
          rfl

/-- C1: appending a non-empty batch with a timestamp strictly greater than
every timestamp already in the store reports success, and `read_latest`
afterwards returns exactly the rows just written, every one of which
carries that single `snapshot_time`. -/
theorem append_fresh_then_read_latest (stations : List RawStation) (t : String)
    (store : List Row) (hne : stations ≠ [])
    (hfresh : ∀ r ∈ store, r.snapshot_time < t) :
    (load_data_to_sqlite false stations t store).ret = some true ∧
    read_latest (load_data_to_sqlite false stations t store).store
        = stations.map (mkRow t) ∧
    ∀ r ∈ stations.map (mkRow t), r.snapshot_time = t := by
  have he : stations.isEmpty = false := by simpa using hne
  have hstore : (load_data_to_sqlite false stations t store).store
      = store ++ stations.map (mkRow t) := by simp [load_data_to_sqlite, he]
  have hts : ∀ r ∈ stations.map (mkRow t), r.snapshot_time = t := by
    intro r hr
    obtain ⟨s, _, rfl⟩ := List.mem_map.mp hr
    rfl
  refine ⟨by simp [load_data_to_sqlite, he], ?_, hts⟩
  obtain ⟨s0, hs0⟩ : ∃ s, s ∈ stations := by
    cases stations with
    | nil => exact absurd rfl hne
    | cons s ss => exact ⟨s, List.mem_cons_self _ _⟩
  have hnew : mkRow t s0 ∈ stations.map (mkRow t) := List.mem_map_of_mem _ hs0
  have hLne : store ++ stations.map (mkRow t) ≠ [] := by
    intro h
    exact absurd ((List.map_eq_nil_iff).mp (List.append_eq_nil.mp h).2) hne
  obtain ⟨m, hm, ⟨r1, hr1, hr1t⟩, hub⟩ := maxTime_spec hLne
  have htm : t ≤ m := by
    have := hub (mkRow t s0) (List.mem_append_right _ hnew)
    simpa [mkRow] using this
  have hmt : m = t := by
    rcases List.mem_append.mp hr1 with h | h
    · have hlt : m < t := hr1t ▸ hfresh r1 h
      exact absurd htm (not_le.mpr hlt)
    · obtain ⟨s, _, rfl⟩ := List.mem_map.mp h
      exact hr1t.symm
  rw [hstore]
  have hm' : maxTime (store ++ stations.map (mkRow t)) = some t := hmt ▸ hm
  have h1 : store.filter (fun r => decide (r.snapshot_time = t)) = [] :=
    List.filter_eq_nil_iff.mpr (fun r hr => by simp [ne_of_lt (hfresh r hr)])
  have h2 : (stations.map (mkRow t)).filter (fun r => decide (r.snapshot_time = t))
      = stations.map (mkRow t) :=
    List.filter_eq_self.mpr (fun r hr => by simp [hts r hr])
  simp [read_latest, hm', List.filter_append, h1, h2]

theorem str_lt_ab : ("a" : String) < "b" := by
  rw [String.lt_iff_toList_lt]
  decide

def c1stations : List RawStation :=
  [{ id := some "S1", name := some "Station 1", free_bikes := some 3,
     empty_slots := some 4, latitude := none, longitude := none }]

def c1oldRow : Row :=
  { snapshot_time := "a", station_id := some "S0", name := none,
    num_bikes_available := some 1, num_docks_available := some 1,
    latitude := none, longitude := none }

theorem append_fresh_then_read_latest_witness :
    (load_data_to_sqlite false c1stations "b" [c1oldRow]).ret = some true ∧
    read_latest (load_data_to_sqlite false c1stations "b" [c1oldRow]).store
        = c1stations.map (mkRow "b") := by
  have hf : ∀ r ∈ [c1oldRow], r.snapshot_time < "b" := by
    intro r hr
    simp only [List.mem_singleton] at hr
    subst hr
    exact str_lt_ab
  have h := append_fresh_then_read_latest c1stations "b" [c1oldRow] (by decide) hf
  exact ⟨h.1, h.2.1⟩

/-- C2: when the network fetch raises a `RequestException` (transport error
or the non-2xx error from `raise_for_status`), the cycle writes nothing to
the store, is classified by the `except RequestException` branch
(`networkFailure`), and returns the failure value `False` instead of
crashing. -/
theorem network_failure_no_write (now : String) (fault : Bool) (store : List Row) :
    (run_ingestion_cycle FetchResult.requestError now fault store).1 = store ∧
    (run_ingestion_cycle FetchResult.requestError now fault store).2
        = CycleOutcome.networkFailure ∧
    ((run_ingestion_cycle FetchResult.requestError now fault store).2).ret
        = some false :=
  ⟨rfl, rfl, rfl⟩

/-- C6: every row a single ingestion cycle adds to the store carries the
one timestamp stamped for that cycle (`datetime.now().isoformat()`, taken
once before the batch write): the store after the cycle is the old store
followed by a batch of rows all sharing `snapshot_time = now`. -/
theorem cycle_rows_share_one_timestamp (fetch : FetchResult) (now : String)
    (fault : Bool) (store : List Row) :
    ∃ written, (run_ingestion_cycle fetch now fault store).1 = store ++ written ∧
      ∀ r ∈ written, r.snapshot_time = now := by
  cases fetch with
  | requestError => exact ⟨[], by simp [run_ingestion_cycle], by simp⟩
  | ok data =>
      simpa [run_ingestion_cycle] using
        load_store_extends fault ((data.network.getD ⟨none⟩).stations.getD [])
          now store

/-- C7: on a storage fault during a non-empty batch write the transaction
is rolled back (the store is exactly what it was, zero rows of the batch
persist) and the `except sqlite3.Error` branch returns the failure value
`False` instead of raising; without a fault the whole batch is persisted;
and in both cases the `finally` block closes the connection it opened. -/
theorem append_fault_rollback (stations : List RawStation) (t : String)
    (store : List Row) (hne : stations ≠ []) :
    (load_data_to_sqlite true stations t store).store = store ∧
    (load_data_to_sqlite true stations t store).ret = some false ∧
    (load_data_to_sqlite false stations t store).store
        = store ++ stations.map (mkRow t) ∧
    ∀ fault, (load_data_to_sqlite fault stations t store).connOpened = true ∧
      (load_data_to_sqlite fault stations t store).connClosed = true := by
  have he : stations.isEmpty = false := by simpa using hne
  refine ⟨by simp [load_data_to_sqlite, he], by simp [load_data_to_sqlite, he],
    by simp [load_data_to_sqlite, he], ?_⟩
  intro fault
  cases fault <;> simp [load_data_to_sqlite, he]

def c7stations : List RawStation :=
  [{ id := some "X", name := some "Station X", free_bikes := some 1,
     empty_slots := some 1, latitude := none, longitude := none }]

theorem append_fault_rollback_witness :
    (load_data_to_sqlite true c7stations "t0" []).store = [] ∧
    (load_data_to_sqlite true c7stations "t0" []).ret = some false ∧
    (load_data_to_sqlite true c7stations "t0" []).connClosed = true := by
  have h := append_fault_rollback c7stations "t0" [] (by decide)
  exact ⟨h.1, h.2.1, (h.2.2.2 true).2⟩

/-- C8: `read_latest` on the empty store returns the empty list (the MAX
subquery is NULL, no error); whenever the store is non-empty the MAX
subquery yields a value, and that value is attained by a row of the store,
bounds every row's timestamp from above, and a row is returned by
`read_latest` exactly when it is in the store with that maximal
`snapshot_time`. -/
theorem read_latest_max_rows :
    read_latest [] = [] ∧
    (∀ store : List Row, store ≠ [] → maxTime store ≠ none) ∧
    ∀ (store : List Row) (m : String), maxTime store = some m →
      (∃ r ∈ store, r.snapshot_time = m) ∧
      (∀ r ∈ store, r.snapshot_time ≤ m) ∧
      ∀ r : Row, r ∈ read_latest store ↔ r ∈ store ∧ r.snapshot_time = m := by
  refine ⟨rfl, ?_, ?_⟩
  · intro store hs hn
    exact hs (maxTime_eq_none.mp hn)
  · intro store m hm
    have hs : store ≠ [] := by
      intro h
      subst h
      simp [maxTime] at hm
    obtain ⟨m', hm', hach, hub⟩ := maxTime_spec hs
    have : m' = m := by
      rw [hm] at hm'
      exact (Option.some.injEq _ _).mp hm'.symm
    subst this
    refine ⟨hach, hub, ?_⟩
    intro r
    simp [read_latest, hm]

def c8rowA : Row :=
  { snapshot_time := "a", station_id := some "A", name := none,
    num_bikes_available := none, num_docks_available := none,
    latitude := none, longitude := none }

def c8rowB : Row :=
  { snapshot_time := "b", station_id := some "B", name := none,
    num_bikes_available := some 2, num_docks_available := some 2,
    latitude := none, longitude := none }

theorem read_latest_max_rows_witness :
    read_latest [] = [] ∧
    (c8rowB ∈ read_latest [c8rowA, c8rowB]
        ↔ c8rowB ∈ [c8rowA, c8rowB] ∧ c8rowB.snapshot_time = "b") ∧
    (c8rowA ∈ read_latest [c8rowA, c8rowB]
        ↔ c8rowA ∈ [c8rowA, c8rowB] ∧ c8rowA.snapshot_time = "b") := by
  have h := read_latest_max_rows
  have hmax : maxTime [c8rowA, c8rowB] = some "b" := by
    simp [maxTime, c8rowA, c8rowB, max_eq_right (le_of_lt str_lt_ab)]
  have h3 := h.2.2 [c8rowA, c8rowB] "b" hmax
  exact ⟨h.1, h3.2.2 c8rowB, h3.2.2 c8rowA⟩

/-- C9: on the empty record list `load_data_to_sqlite` takes the early
`return` (Python `None`, the trivial normal completion — the same value the
`extract.py` variant returns on its success path): the store is untouched,
no connection is ever opened, no exception is raised and the failure value
`False` is not produced. -/
theorem append_empty_noop (fault : Bool) (t : String) (store : List Row) :
    load_data_to_sqlite fault [] t store =
      { store := store, ret := none, connOpened := false, connClosed := false } := by
  cases fault <;> rfl

theorem rankBefore_char (a b : RankingEntry) (h : rankBefore a b = true) :
    (∀ x y : ℚ, a.avg_bikes = some x → b.avg_bikes = some y → y ≤ x) ∧
    (a.avg_bikes = none → b.avg_bikes = none) := by
  unfold rankBefore at h
  constructor
  · intro x y hx hy
    rw [hx, hy] at h
    exact of_decide_eq_true h
  · intro hx
    cases hy : b.avg_bikes with
    | none => rfl
    | some y =>
        rw [hx, hy] at h
        exact Bool.noConfusion h

/-- C3: for every store the ranking query returns at most 10 entries
(`LIMIT 10`), and the returned sequence is ordered descending by
`avg_bikes`: for any entry preceding another, if both averages are
non-NULL the later one is ≤ the earlier one, and a NULL average (SQLite
sorts NULL last under DESC) is never followed by a non-NULL one. -/
theorem ranking_limit_and_sorted (store : List Row) :
    (compute_ranking store).length ≤ 10 ∧
    List.Pairwise
      (fun a b : RankingEntry =>
        (∀ x y : ℚ, a.avg_bikes = some x → b.avg_bikes = some y → y ≤ x) ∧
        (a.avg_bikes = none → b.avg_bikes = none))
      (compute_ranking store) := by
  constructor
  · exact List.length_take_le _ _
  · have hs : ((rankingEntries store).mergeSort rankBefore).Pairwise
        (fun a b => rankBefore a b = true) :=
      List.sorted_mergeSort rankBefore_trans rankBefore_total (rankingEntries store)
    have hs' : (compute_ranking store).Pairwise (fun a b => rankBefore a b = true) :=
      List.Pairwise.sublist (List.take_sublist _ _) hs
    exact hs'.imp (fun hab => rankBefore_char _ _ hab)

def c4row1 : Row :=
  { snapshot_time := "t1", station_id := some "S1", name := some "Station 1",
    num_bikes_available := some 5, num_docks_available := some 5,
    latitude := none, longitude := none }

def c4row2 : Row :=
  { snapshot_time := "t2", station_id := some "S1", name := some "Station 1",
    num_bikes_available := some 7, num_docks_available := some 3,
    latitude := none, longitude := none }

/-- C4: on the two-row store `{(t1, S1, bikes=5, docks=5),
(t2, S1, bikes=7, docks=3)}` the ranking query returns the single group S1
with `snapshots_count = 2`, `total_bikes = 12`, `avg_bikes = 6`, and
`avg_utilization_percent = 60` (the mean of 50% and 70%, already exact at
2 decimal places). -/
theorem ranking_example_means :
    compute_ranking [c4row1, c4row2] =
      [{ station_id := some "S1", name := some "Station 1", snapshots_count := 2,
         total_bikes := some 12, avg_bikes := some 6,
         avg_utilization_percent := some 60 }] := by
  have hg : groupRows [c4row1, c4row2] (some "S1", some "Station 1")
      = [c4row1, c4row2] := rfl
  have hentry : entryFor [c4row1, c4row2] (some "S1", some "Station 1") =
      { station_id := some "S1", name := some "Station 1", snapshots_count := 2,
        total_bikes := some 12, avg_bikes := some 6,
        avg_utilization_percent := some 60 } := by
    have hmapb : List.map (fun r : Row => r.num_bikes_available) [c4row1, c4row2]
        = [some 5, some 7] := rfl
    have hsum12 : sqlSum [some (5 : ℤ), some 7] = some 12 := rfl
    have h5 : sqlAvgInt [some (5 : ℤ), some 7] = some 6 := by
      simp only [sqlAvgInt,
        show List.filterMap id [some (5 : ℤ), some 7] = [5, 7] from rfl]
      norm_num
    have h1 : rowUtil c4row1 = some (1/2 : ℚ) := by
      simp only [rowUtil, c4row1]
      norm_num
    have h2 : rowUtil c4row2 = some (7/10 : ℚ) := by
      simp only [rowUtil, c4row2]
      norm_num
    have hmapu : List.map rowUtil [c4row1, c4row2]
        = [some (1/2 : ℚ), some (7/10)] := by
      rw [List.map_cons, List.map_cons, List.map_nil, h1, h2]
    have hsumq : sqlAvgQ [some (1/2 : ℚ), some (7/10)] = some (3/5) := by
      simp only [sqlAvgQ,
        show List.filterMap id [some ((1:ℚ)/2), some ((7:ℚ)/10)]
            = [1/2, 7/10] from rfl]
      norm_num
    have h6 : Option.map (fun a : ℚ => round2 (a * 100)) (some ((3 : ℚ)/5))
        = some 60 := by
      have harg : ((3/5 : ℚ) * 100) = 60 := by norm_num
      have hfl : ⌊(60 : ℚ) * 100 + 1/2⌋ = 6000 := by
        rw [Int.floor_eq_iff]
        constructor <;> norm_num
      simp only [Option.map_some', harg]
      norm_num [round2, hfl]
    simp only [entryFor, hg, hmapb, hsum12, h5, hmapu, hsumq, h6]
    rfl
  have hkeys : groupKeys [c4row1, c4row2] = [(some "S1", some "Station 1")] := rfl
  have h : rankingEntries [c4row1, c4row2] =
      [{ station_id := some "S1", name := some "Station 1", snapshots_count := 2,
         total_bikes := some 12, avg_bikes := some 6,
         avg_utilization_percent := some 60 }] := by
    rw [rankingEntries, hkeys, List.map_cons, List.map_nil, hentry]
  rw [compute_ranking, h]
  rw [List.perm_singleton.mp (List.mergeSort_perm _ rankBefore)]
  rfl

/-- C5: the ranking analysis is total on every store, also in the presence
of a zero-capacity row (`num_bikes_available = 0`,
`num_docks_available = 0`): the GROUP BY stage produces an entry for every
group, the query result is exactly the first `min 10 ·` of the sorted
entries, and the group of any zero-capacity row gets an entry (division by
zero yields SQL NULL, never an error). -/
theorem ranking_zero_capacity_total (store : List Row) :
    (∀ k ∈ groupKeys store, entryFor store k ∈ rankingEntries store) ∧
    (compute_ranking store).length = min 10 (rankingEntries store).length ∧
    ∀ r ∈ store, r.num_bikes_available = some 0 →
      r.num_docks_available = some 0 →
      entryFor store (rowKey r) ∈ rankingEntries store ∧
      (entryFor store (rowKey r)).station_id = r.station_id ∧
      (entryFor store (rowKey r)).name = r.name ∧
      0 < (entryFor store (rowKey r)).snapshots_count := by
  refine ⟨?_, ?_, ?_⟩
  · intro k hk
    exact List.mem_map_of_mem _ hk
  · rw [compute_ranking, List.length_take, List.length_mergeSort]
  · intro r hr h0 hd
    have hk : rowKey r ∈ groupKeys store :=
      List.mem_dedup.mpr (List.mem_map_of_mem _ hr)
    have hmem : r ∈ groupRows store (rowKey r) := by
      simp [groupRows, hr]
    exact ⟨List.mem_map_of_mem _ hk, rfl, rfl, List.length_pos_of_mem hmem⟩

def c5row : Row :=
  { snapshot_time := "t1", station_id := some "Z", name := some "Zero Cap",
    num_bikes_available := some 0, num_docks_available := some 0,
    latitude := none, longitude := none }

theorem ranking_zero_capacity_total_witness :
    entryFor [c5row] (rowKey c5row) ∈ rankingEntries [c5row] ∧
    (entryFor [c5row] (rowKey c5row)).station_id = c5row.station_id ∧
    (entryFor [c5row] (rowKey c5row)).name = c5row.name ∧
    0 < (entryFor [c5row] (rowKey c5row)).snapshots_count := by
  have h := (ranking_zero_capacity_total [c5row]).2.2 c5row
    (List.mem_singleton.mpr rfl) rfl rfl
  exact h

theorem sqlSum_append_none (vals : List (Option Int)) :
    sqlSum (vals ++ [none]) = sqlSum vals := by
  simp [sqlSum]

theorem sqlAvgInt_append_none (vals : List (Option Int)) :
    sqlAvgInt (vals ++ [none]) = sqlAvgInt vals := by
  simp [sqlAvgInt]

theorem sqlAvgQ_append_none (vals : List (Option ℚ)) :
    sqlAvgQ (vals ++ [none]) = sqlAvgQ vals := by
  simp [sqlAvgQ]

theorem groupRows_append_one (store : List Row)
    (k : Option String × Option String) (r : Row) (h : rowKey r = k) :
    groupRows (store ++ [r]) k = groupRows store k ++ [r] := by
  simp [groupRows, List.filter_append, h]

/-- C10: the implemented NULL semantics of the aggregates — a row with NULL
`num_bikes_available` still increments `COUNT(*)` but changes neither
`SUM(num_bikes_available)` nor `AVG(num_bikes_available)`; a row with
`num_bikes_available + num_docks_available = 0` has a NULL utilization term
(SQLite division by zero); any row whose utilization term is NULL is
skipped by the utilization AVG (count up by one, average unchanged); and a
group all of whose rows have a NULL utilization term gets a NULL
`avg_utilization_percent`, not 0%. -/
theorem null_bikes_and_zero_capacity_policy :
    (∀ (store : List Row) (k : Option String × Option String) (r : Row),
        rowKey r = k → r.num_bikes_available = none →
        (entryFor (store ++ [r]) k).snapshots_count
            = (entryFor store k).snapshots_count + 1 ∧
        (entryFor (store ++ [r]) k).total_bikes = (entryFor store k).total_bikes ∧
        (entryFor (store ++ [r]) k).avg_bikes = (entryFor store k).avg_bikes) ∧
    (∀ (r : Row) (b d : Int), r.num_bikes_available = some b →
        r.num_docks_available = some d → b + d = 0 → rowUtil r = none) ∧
    (∀ (store : List Row) (k : Option String × Option String) (r : Row),
        rowKey r = k → rowUtil r = none →
        (entryFor (store ++ [r]) k).snapshots_count
            = (entryFor store k).snapshots_count + 1 ∧
        (entryFor (store ++ [r]) k).avg_utilization_percent
            = (entryFor store k).avg_utilization_percent) ∧
    ∀ (store : List Row) (k : Option String × Option String),
      (∀ r ∈ groupRows store k, rowUtil r = none) →
      (entryFor store k).avg_utilization_percent = none := by
  refine ⟨?_, ?_, ?_, ?_⟩
  · intro store k r hk hb
    have hg := groupRows_append_one store k r hk
    refine ⟨by simp [entryFor, hg], ?_, ?_⟩
    · simp only [entryFor, hg, List.map_append, List.map_cons, List.map_nil, hb]
      exact sqlSum_append_none _
    · simp only [entryFor, hg, List.map_append, List.map_cons, List.map_nil, hb]
      exact sqlAvgInt_append_none _
  · intro r b d hb hd h0
    simp [rowUtil, hb, hd, h0]
  · intro store k r hk hu
    have hg := groupRows_append_one store k r hk
    refine ⟨by simp [entryFor, hg], ?_⟩
    simp only [entryFor, hg, List.map_append, List.map_cons, List.map_nil, hu]
    rw [sqlAvgQ_append_none]
  · intro store k hall
    have hnil : ((groupRows store k).map rowUtil).filterMap id = [] := by
      rw [List.filterMap_eq_nil_iff]
      intro a ha
      obtain ⟨r, hr, rfl⟩ := List.mem_map.mp ha
      exact hall r hr
    simp [entryFor, sqlAvgQ, hnil]

def c10nullRow : Row :=
  { snapshot_time := "t1", station_id := some "N", name := none,
    num_bikes_available := none, num_docks_available := some 4,
    latitude := none, longitude := none }

def c10zeroRow : Row :=
  { snapshot_time := "t1", station_id := some "Z", name := none,
    num_bikes_available := some 0, num_docks_available := some 0,
    latitude := none, longitude := none }

theorem null_bikes_and_zero_capacity_policy_witness :
    (entryFor ([] ++ [c10nullRow]) (rowKey c10nullRow)).snapshots_count
        = (entryFor [] (rowKey c10nullRow)).snapshots_count + 1 ∧
    (entryFor ([] ++ [c10nullRow]) (rowKey c10nullRow)).total_bikes
        = (entryFor [] (rowKey c10nullRow)).total_bikes ∧
    rowUtil c10zeroRow = none ∧
    (entryFor [c10zeroRow] (rowKey c10zeroRow)).avg_utilization_percent = none := by
  have h := null_bikes_and_zero_capacity_policy
  have h1 := h.1 [] (rowKey c10nullRow) c10nullRow rfl rfl
  have h2 := h.2.1 c10zeroRow 0 0 rfl rfl rfl
  have h4 := h.2.2.2 [c10zeroRow] (rowKey c10zeroRow) (by decide)
  exact ⟨h1.1, h1.2.1, h2, h4⟩
